import Mathlib

/-!
Verification development for the Divvy bike-share analysis pipeline.

The embedding covers the three core modules:
* the pricing engine (src/models/unit_economics.py),
* the cleaning pipeline (src/data/clean_data.py),
* the temporal feature extractor (src/features/temporal_features.py).

Monetary amounts and durations are modelled as exact rationals; the Python
code uses floats, but the contract in question is the exact arithmetic
formula, which rationals capture without rounding.  Timestamps are modelled
as already-parsed values (the core receives parsed datetimes from the
loader).  Strings are modelled with an explicit ASCII lowercase map,
matching the behaviour of str.to_lowercase on the ASCII column values the
pipeline handles.
-/

namespace Divvy

/-! ### ASCII helpers shared by several modules -/

/-- ASCII lowercase of a single character, the character-level model of
str.to_lowercase / str.lower used by the source on column values. -/
def lowCh (c : Char) : Char :=
  if h : 65 ≤ c.toNat ∧ c.toNat ≤ 90 then
    Char.ofNatAux (c.toNat + 32) (Or.inl (by omega))
  else c

/-- Lowercase of a string, mapping `lowCh` over its characters. -/
def lowerStr (s : String) : String :=
  ⟨s.data.map lowCh⟩

/-- Substring membership test, the model of the Python `in` operator on
strings: some tail of `s` starts with `pat`. -/
def containsSub (pat s : String) : Bool :=
  (s.data.tails).any (fun t => pat.data.isPrefixOf t)

theorem toNat_lowCh (c : Char) (h : 65 ≤ c.toNat ∧ c.toNat ≤ 90) :
    (lowCh c).toNat = c.toNat + 32 := by
  unfold lowCh
  rw [dif_pos h]
  rfl

theorem lowCh_of_not (c : Char) (h : ¬ (65 ≤ c.toNat ∧ c.toNat ≤ 90)) :
    lowCh c = c := by
  unfold lowCh
  rw [dif_neg h]

theorem lowCh_idem (c : Char) : lowCh (lowCh c) = lowCh c := by
  by_cases h : 65 ≤ c.toNat ∧ c.toNat ≤ 90
  · have h1 : (lowCh c).toNat = c.toNat + 32 := toNat_lowCh c h
    apply lowCh_of_not
    rw [h1]
    omega
  · rw [lowCh_of_not c h, lowCh_of_not c h]

theorem lowerStr_idem (s : String) : lowerStr (lowerStr s) = lowerStr s := by
  unfold lowerStr
  apply congrArg String.mk
  rw [List.map_map]
  exact List.map_congr_left (fun a _ => lowCh_idem a)

/-! ### Pricing engine (UnitEconomicsModel, src/models/unit_economics.py)

Tariff records mirror the nested dictionaries of `_load_pricing_rules`:
year -> user tier -> bike type -> {unlock_fee, per_minute, free_minutes}. -/

structure Tariff where
  unlock_fee : ℚ
  per_minute : ℚ
  free_minutes : ℚ
deriving DecidableEq

structure TierTariffs where
  classic_bike : Tariff
  electric_bike : Tariff
deriving DecidableEq

structure YearTariffs where
  casual : TierTariffs
  member : TierTariffs
deriving DecidableEq

def tariffs2020 : YearTariffs :=
  ⟨⟨⟨2.50, 0.125, 0⟩, ⟨3.00, 0.185, 0⟩⟩, ⟨⟨0.00, 0.126, 60⟩, ⟨0.00, 0.154, 45⟩⟩⟩

def tariffs2021 : YearTariffs :=
  ⟨⟨⟨2.80, 0.135, 0⟩, ⟨3.20, 0.195, 0⟩⟩, ⟨⟨0.00, 0.136, 60⟩, ⟨0.00, 0.164, 45⟩⟩⟩

def tariffs2022 : YearTariffs :=
  ⟨⟨⟨0.90, 0.141, 10⟩, ⟨1.00, 0.355, 5⟩⟩, ⟨⟨0.00, 0.146, 60⟩, ⟨0.00, 0.143, 30⟩⟩⟩

def tariffs2023 : YearTariffs :=
  ⟨⟨⟨0.90, 0.151, 10⟩, ⟨1.00, 0.385, 5⟩⟩, ⟨⟨0.00, 0.156, 60⟩, ⟨0.00, 0.153, 30⟩⟩⟩

def tariffs2024 : YearTariffs :=
  ⟨⟨⟨0.90, 0.161, 10⟩, ⟨1.00, 0.405, 5⟩⟩, ⟨⟨0.00, 0.166, 60⟩, ⟨0.00, 0.163, 30⟩⟩⟩

def tariffs2025 : YearTariffs :=
  ⟨⟨⟨0.90, 0.171, 10⟩, ⟨1.00, 0.425, 5⟩⟩, ⟨⟨0.00, 0.176, 60⟩, ⟨0.00, 0.173, 30⟩⟩⟩

/-- The year-indexed tariff dictionary of `_load_pricing_rules`; `none`
models the year not being a key of the dictionary. -/
def pricingRules (year : Int) : Option YearTariffs :=
  if year = 2020 then some tariffs2020
  else if year = 2021 then some tariffs2021
  else if year = 2022 then some tariffs2022
  else if year = 2023 then some tariffs2023
  else if year = 2024 then some tariffs2024
  else if year = 2025 then some tariffs2025
  else none

/-- The year lookup of `calculate_ride_cost` lines 84-85: a year absent
from the table silently falls back to the 2025 entry. -/
def yearRules (year : Int) : YearTariffs :=
  (pricingRules year).getD tariffs2025

/-- User-tier normalization, line 88: anything other than the exact string
"casual" is treated as "member". -/
def tierRules (year : Int) (user_type : String) : TierTariffs :=
  if user_type = "casual" then (yearRules year).casual else (yearRules year).member

/-- Bike-type normalization, line 89: a bike type whose lowercase form
contains "electric" selects the electric tariff, anything else classic. -/
def getTariff (year : Int) (user_type bike_type : String) : Tariff :=
  if containsSub "electric" (lowerStr bike_type) then
    (tierRules year user_type).electric_bike
  else
    (tierRules year user_type).classic_bike

/-- `UnitEconomicsModel.calculate_ride_cost`, lines 81-100. -/
def calculate_ride_cost (duration_minutes : ℚ) (user_type bike_type : String)
    (year : Int) : ℚ :=
  if duration_minutes ≤ (getTariff year user_type bike_type).free_minutes then
    (getTariff year user_type bike_type).unlock_fee
  else
    (getTariff year user_type bike_type).unlock_fee +
      (duration_minutes - (getTariff year user_type bike_type).free_minutes) *
        (getTariff year user_type bike_type).per_minute

theorem getTariff_2024_member_classic :
    getTariff 2024 "member" "classic_bike" = tariffs2024.member.classic_bike := rfl

theorem getTariff_2025_casual_classic :
    getTariff 2025 "casual" "classic_bike" = tariffs2025.casual.classic_bike := rfl

theorem yearRules_mem (year : Int) :
    yearRules year ∈ [tariffs2020, tariffs2021, tariffs2022, tariffs2023,
      tariffs2024, tariffs2025] := by
  unfold yearRules pricingRules
  split_ifs <;> simp

theorem getTariff_per_minute_nonneg (year : Int) (u b : String) :
    0 ≤ (getTariff year u b).per_minute := by
  have h := yearRules_mem year
  unfold getTariff tierRules
  simp only [List.mem_cons, List.not_mem_nil, or_false] at h
  rcases h with h | h | h | h | h | h <;> rw [h] <;> split_ifs <;>
    norm_num [tariffs2020, tariffs2021, tariffs2022, tariffs2023, tariffs2024,
      tariffs2025]

theorem getTariff_unlock_fee_nonneg (year : Int) (u b : String) :
    0 ≤ (getTariff year u b).unlock_fee := by
  have h := yearRules_mem year
  unfold getTariff tierRules
  simp only [List.mem_cons, List.not_mem_nil, or_false] at h
  rcases h with h | h | h | h | h | h <;> rw [h] <;> split_ifs <;>
    norm_num [tariffs2020, tariffs2021, tariffs2022, tariffs2023, tariffs2024,
      tariffs2025]

/-- C1: for every duration, tier, bike type and year, the cost is exactly
the unlock fee of the selected tariff entry when the duration is within the
free minutes, and exactly unlock fee plus (duration minus free minutes)
times the per-minute rate otherwise, with no rounding; in particular the
member / classic / 2024 ride of 70 minutes costs (70 - 60) * 0.166 = 1.66. -/
theorem c1_ride_cost_formula :
    (∀ (d : ℚ) (u b : String) (year : Int),
      (d ≤ (getTariff year u b).free_minutes →
        calculate_ride_cost d u b year = (getTariff year u b).unlock_fee) ∧
      ((getTariff year u b).free_minutes < d →
        calculate_ride_cost d u b year =
          (getTariff year u b).unlock_fee +
            (d - (getTariff year u b).free_minutes) * (getTariff year u b).per_minute)) ∧
    calculate_ride_cost 70 "member" "classic_bike" 2024 = 1.66 := by
  constructor
  · intro d u b year
    constructor
    · intro h
      unfold calculate_ride_cost
      rw [if_pos h]
    · intro h
      unfold calculate_ride_cost
      rw [if_neg (not_le.mpr h)]
  · unfold calculate_ride_cost
    rw [getTariff_2024_member_classic]
    norm_num [tariffs2024]

/-- Witness for C1: the strict branch of the formula instantiated at
concrete inputs, discharging the branch hypothesis there. -/
theorem c1_ride_cost_formula_witness :
    calculate_ride_cost 70 "member" "classic_bike" 2024 =
      (getTariff 2024 "member" "classic_bike").unlock_fee +
        ((70 : ℚ) - (getTariff 2024 "member" "classic_bike").free_minutes) *
          (getTariff 2024 "member" "classic_bike").per_minute :=
  ((c1_ride_cost_formula.1 70 "member" "classic_bike" 2024).2
    (by rw [getTariff_2024_member_classic]; norm_num [tariffs2024]))

/-- C4: a year that is not a key of the tariff table (2020 to 2025) is
silently replaced by the latest year 2025; in particular the casual /
classic ride of 10 minutes in 1999 is priced by the 2025 tariff row. -/
theorem c4_unknown_year_fallback :
    (∀ (d : ℚ) (u b : String) (year : Int),
      year ∉ ([2020, 2021, 2022, 2023, 2024, 2025] : List Int) →
      calculate_ride_cost d u b year = calculate_ride_cost d u b 2025) ∧
    calculate_ride_cost 10 "casual" "classic_bike" 1999 =
      calculate_ride_cost 10 "casual" "classic_bike" 2025 := by
  have key : ∀ (d : ℚ) (u b : String) (year : Int),
      year ∉ ([2020, 2021, 2022, 2023, 2024, 2025] : List Int) →
      calculate_ride_cost d u b year = calculate_ride_cost d u b 2025 := by
    intro d u b year hy
    simp only [List.mem_cons, List.not_mem_nil, or_false, not_or] at hy
    obtain ⟨h0, h1, h2, h3, h4, h5⟩ := hy
    have hnone : pricingRules year = none := by
      unfold pricingRules
      rw [if_neg h0, if_neg h1, if_neg h2, if_neg h3, if_neg h4, if_neg h5]
    have h2025 : pricingRules 2025 = some tariffs2025 := rfl
    unfold calculate_ride_cost getTariff tierRules yearRules
    rw [hnone, h2025]
    simp only [Option.getD_some, Option.getD_none]
  exact ⟨key, key 10 "casual" "classic_bike" 1999 (by decide)⟩

/-- Witness for C4: the fallback applied at year 1999, the membership
hypothesis discharged by computation. -/
theorem c4_unknown_year_fallback_witness :
    (1999 : Int) ∉ ([2020, 2021, 2022, 2023, 2024, 2025] : List Int) ∧
    calculate_ride_cost 10 "casual" "classic_bike" 1999 =
      calculate_ride_cost 10 "casual" "classic_bike" 2025 :=
  ⟨by decide, c4_unknown_year_fallback.1 10 "casual" "classic_bike" 1999 (by decide)⟩

/-- C9: for a fixed tier, bike type and year, the ride cost is
non-decreasing in the duration. -/
theorem c9_cost_monotone (u b : String) (year : Int) (d1 d2 : ℚ)
    (h : d1 ≤ d2) :
    calculate_ride_cost d1 u b year ≤ calculate_ride_cost d2 u b year := by
  have hr := getTariff_per_minute_nonneg year u b
  unfold calculate_ride_cost
  split_ifs with h1 h2 h2
  · exact le_refl _
  · have hd2 : (getTariff year u b).free_minutes < d2 := not_le.mp h2
    have : 0 ≤ (d2 - (getTariff year u b).free_minutes) *
        (getTariff year u b).per_minute :=
      mul_nonneg (by linarith) hr
    linarith
  · linarith
  · have hmul := mul_le_mul_of_nonneg_right
      (sub_le_sub_right h (getTariff year u b).free_minutes) hr
    linarith

/-- Witness for C9: monotonicity applied at the concrete pair 5 ≤ 50. -/
theorem c9_cost_monotone_witness :
    (5 : ℚ) ≤ 50 ∧
    calculate_ride_cost 5 "casual" "classic_bike" 2024 ≤
      calculate_ride_cost 50 "casual" "classic_bike" 2024 :=
  ⟨by decide, c9_cost_monotone "casual" "classic_bike" 2024 5 50 (by decide)⟩

/-- C10: for every non-negative duration the cost is at least the selected
unlock fee of the selected tariff entry, and hence at least 0. -/
theorem c10_cost_ge_unlock_fee (d : ℚ) (u b : String) (year : Int)
    (h : 0 ≤ d) :
    (getTariff year u b).unlock_fee ≤ calculate_ride_cost d u b year ∧
    0 ≤ calculate_ride_cost d u b year := by
  have hr := getTariff_per_minute_nonneg year u b
  have hu := getTariff_unlock_fee_nonneg year u b
  unfold calculate_ride_cost
  split_ifs with h1
  · exact ⟨le_refl _, hu⟩
  · have hd : (getTariff year u b).free_minutes < d := not_le.mp h1
    have : 0 ≤ (d - (getTariff year u b).free_minutes) *
        (getTariff year u b).per_minute :=
      mul_nonneg (by linarith) hr
    constructor <;> linarith

/-- Witness for C10: the lower bounds applied at duration 3. -/
theorem c10_cost_ge_unlock_fee_witness :
    (0 : ℚ) ≤ 3 ∧
    ((getTariff 2022 "member" "electric_bike").unlock_fee ≤
      calculate_ride_cost 3 "member" "electric_bike" 2022 ∧
    0 ≤ calculate_ride_cost 3 "member" "electric_bike" 2022) :=
  ⟨by decide, c10_cost_ge_unlock_fee 3 "member" "electric_bike" 2022 (by decide)⟩

/-! ### Subscription revenue (calculate_subscription_revenue, lines 140-161)

The method reads only the member_casual, year, month and ride_id columns,
so rows are modelled with exactly those fields. -/

structure ERow where
  ride_id : String
  member_casual : String
  year : Int
  month : Int
deriving DecidableEq

/-- Line 146: keep only rows whose member_casual equals "member". -/
def memberRows (rows : List ERow) : List ERow :=
  rows.filter (fun r => r.member_casual == "member")

/-- The group keys of the (year, month) group_by on line 149. -/
def monthKeys (rows : List ERow) : List (Int × Int) :=
  (rows.map (fun r => (r.year, r.month))).dedup

/-- The n_unique ride_id aggregation of line 150 for one group key. -/
def distinctRideCount (rows : List ERow) (k : Int × Int) : ℕ :=
  ((rows.filter (fun r => (r.year, r.month) == k)).map ERow.ride_id).dedup.length

/-- The sum of the per-month distinct ride counts over the member rows,
the value summed on line 154. -/
def memberDistinctTotal (rows : List ERow) : ℕ :=
  ((monthKeys (memberRows rows)).map (distinctRideCount (memberRows rows))).sum

structure SubscriptionResult where
  subscription_revenue : ℚ
  monthly_subscription_fee : ℚ
  estimated_subscribers : ℚ
deriving DecidableEq

/-- `UnitEconomicsModel.calculate_subscription_revenue`, lines 140-161:
the $15 monthly fee and the 0.6 capture-rate constant applied to the
member distinct-trip total. -/
def calculate_subscription_revenue (rows : List ERow) : SubscriptionResult :=
  ⟨(memberDistinctTotal rows : ℚ) * 15.0 * 0.6, 15.0,
   (memberDistinctTotal rows : ℚ) * 0.6⟩

/-- The formula as the claim words it: grouped distinct-trip counts of the
whole dataset, with no restriction to member rows.  Kept separate so the
claim can be compared against the source behaviour. -/
def claimGroupedDistinctTotal (rows : List ERow) : ℕ :=
  ((monthKeys rows).map (distinctRideCount rows)).sum

/-- C8 counterexample: on a one-row dataset whose single row is a casual
rider, the source returns 0 while the claim formula (which ignores the
member filter) yields 1 * 15 * 0.6 = 9. -/
theorem c8_counterexample :
    (calculate_subscription_revenue [⟨"r1", "casual", 2024, 6⟩]).subscription_revenue = 0 ∧
    (claimGroupedDistinctTotal [⟨"r1", "casual", 2024, 6⟩] : ℚ) * 15.0 * 0.6 = 9 ∧
    (0 : ℚ) ≠ 9 := by
  have h1 : memberDistinctTotal [⟨"r1", "casual", 2024, 6⟩] = 0 := rfl
  have h2 : claimGroupedDistinctTotal [⟨"r1", "casual", 2024, 6⟩] = 1 := rfl
  refine ⟨?_, ?_, by norm_num⟩
  · show (memberDistinctTotal [⟨"r1", "casual", 2024, 6⟩] : ℚ) * 15.0 * 0.6 = 0
    rw [h1]
    norm_num
  · rw [h2]
    norm_num

/-- C8 amended: the subscription revenue equals the claim formula applied
to the member rows only: the sum over (year, month) groups of the distinct
ride_id count in that group, times the $15 monthly fee, times the 0.6
capture-rate constant. -/
theorem c8_subscription_revenue_formula (rows : List ERow) :
    (calculate_subscription_revenue rows).subscription_revenue =
      (claimGroupedDistinctTotal (memberRows rows) : ℚ) * 15.0 * 0.6 := rfl

/-! ### Temporal features (TemporalFeatureExtractor, src/features/temporal_features.py)

A timestamp is modelled as its already-parsed calendar components (the
dt.year / dt.month / ... accessors of polars are projections of it).  The
weekday accessor is modelled by the standard civil-calendar day-of-week
computation under the ISO numbering 1=Monday .. 7=Sunday that polars
dt.weekday uses. -/

structure DT where
  year : ℕ
  month : ℕ
  day : ℕ
  hour : ℕ
  minute : ℕ
deriving DecidableEq

/-- Day count of a civil date from the proleptic-Gregorian era origin
(the standard days-from-civil computation); 1970-01-01 has day number
719468. -/
def dayNumber (y m d : ℕ) : ℕ :=
  let yy := if m ≤ 2 then y - 1 else y
  let era := yy / 400
  let yoe := yy % 400
  let mp := (m + 9) % 12
  let doy := (153 * mp + 2) / 5 + (d - 1)
  let doe := yoe * 365 + yoe / 4 - yoe / 100 + doy
  era * 146097 + doe

/-- ISO weekday, 1=Monday .. 7=Sunday: the model of dt.weekday() on
line 56. -/
def weekdayOf (y m d : ℕ) : ℕ :=
  (dayNumber y m d + 2) % 7 + 1

/-- Seconds-of-era of a timestamp, used for the timestamp differences of
the duration features. -/
def secondsOf (t : DT) : ℤ :=
  86400 * (dayNumber t.year t.month t.day : ℤ) + 3600 * (t.hour : ℤ) +
    60 * (t.minute : ℤ)

/-- The fixed holiday table of `TemporalFeatureExtractor.__init__`,
lines 19-32, as (year, month, day) triples.  The source compares the
ISO-formatted date string of each row against the formatted table; ISO
formatting is injective on dates, so string membership coincides with
membership of the date triple. -/
def holidays : List (ℕ × ℕ × ℕ) :=
  [(2020, 1, 1), (2020, 7, 4), (2020, 11, 26), (2020, 12, 25),
   (2021, 1, 1), (2021, 7, 4), (2021, 11, 25), (2021, 12, 25),
   (2022, 1, 1), (2022, 7, 4), (2022, 11, 24), (2022, 12, 25),
   (2023, 1, 1), (2023, 7, 4), (2023, 11, 23), (2023, 12, 25),
   (2024, 1, 1), (2024, 7, 4), (2024, 11, 28), (2024, 12, 25),
   (2025, 1, 1), (2025, 7, 4), (2025, 11, 27), (2025, 12, 25)]

/-- Peak-hour windows from `__init__`, lines 15-16. -/
def morning_peak : ℕ × ℕ := (7, 9)

def evening_peak : ℕ × ℕ := (16, 18)

def isMorningPeakB (t : DT) : Bool :=
  decide (morning_peak.1 ≤ t.hour ∧ t.hour < morning_peak.2)

def isEveningPeakB (t : DT) : Bool :=
  decide (evening_peak.1 ≤ t.hour ∧ t.hour < evening_peak.2)

/-- The per-row feature columns added by `extract_time_features`
(lines 49-96) together with the holiday flag added on line 94 via
`_add_holiday_features` (lines 98-107).  The cyclical sine/cosine columns
are real-valued transforms outside every claim and are not modelled. -/
structure FeatRow where
  year : ℕ
  month : ℕ
  day : ℕ
  hour : ℕ
  minute : ℕ
  weekday : ℕ
  date : ℕ × ℕ × ℕ
  season : ℕ
  is_weekend : Bool
  is_morning_peak : Bool
  is_evening_peak : Bool
  is_peak_hour : Bool
  is_holiday : Bool
deriving DecidableEq

def extractRowFeatures (t : DT) : FeatRow :=
  { year := t.year
    month := t.month
    day := t.day
    hour := t.hour
    minute := t.minute
    weekday := weekdayOf t.year t.month t.day
    date := (t.year, t.month, t.day)
    season :=
      if t.month ∈ ([12, 1, 2] : List ℕ) then 1
      else if t.month ∈ ([3, 4, 5] : List ℕ) then 2
      else if t.month ∈ ([6, 7, 8] : List ℕ) then 3
      else 4
    is_weekend := decide (6 ≤ weekdayOf t.year t.month t.day)
    is_morning_peak := isMorningPeakB t
    is_evening_peak := isEveningPeakB t
    is_peak_hour := isMorningPeakB t || isEveningPeakB t
    is_holiday := decide ((t.year, t.month, t.day) ∈ holidays) }

/-- The duration-feature columns of `calculate_trip_duration_features`,
lines 126-164. -/
structure DurRow where
  duration_minutes : ℚ
  duration_seconds : ℚ
  is_short_trip : Bool
  is_medium_trip : Bool
  is_long_trip : Bool
  is_very_short_trip : Bool
  duration_category : String
deriving DecidableEq

def durationFeatures (s e : DT) : DurRow :=
  { duration_minutes := ((secondsOf e - secondsOf s : ℤ) : ℚ) / 60
    duration_seconds := ((secondsOf e - secondsOf s : ℤ) : ℚ)
    is_short_trip := decide (((secondsOf e - secondsOf s : ℤ) : ℚ) / 60 ≤ 15)
    is_medium_trip :=
      decide (15 < ((secondsOf e - secondsOf s : ℤ) : ℚ) / 60) &&
      decide (((secondsOf e - secondsOf s : ℤ) : ℚ) / 60 ≤ 45)
    is_long_trip := decide (45 < ((secondsOf e - secondsOf s : ℤ) : ℚ) / 60)
    is_very_short_trip := decide (((secondsOf e - secondsOf s : ℤ) : ℚ) / 60 ≤ 5)
    duration_category :=
      if ((secondsOf e - secondsOf s : ℤ) : ℚ) / 60 ≤ 5 then "very_short"
      else if ((secondsOf e - secondsOf s : ℤ) : ℚ) / 60 ≤ 15 then "short"
      else if ((secondsOf e - secondsOf s : ℤ) : ℚ) / 60 ≤ 45 then "medium"
      else if ((secondsOf e - secondsOf s : ℤ) : ℚ) / 60 ≤ 120 then "long"
      else "very_long" }

/-- A dataset handle for the feature extractor: a column-name schema plus
rows; a row assigns a timestamp value to each (timestamp) column name.
Only column presence and the timestamp values are read by the modelled
methods. -/
structure TFrame where
  cols : List String
  rows : List (String → DT)

/-- `TemporalFeatureExtractor.extract_time_features`, lines 34-96: raises
when the requested datetime column is absent (lines 46-47), otherwise maps
the feature derivation over the rows. -/
def extract_time_features (df : TFrame) (datetime_col : String) :
    Except String (List FeatRow) :=
  if datetime_col ∈ df.cols then
    .ok (df.rows.map (fun r => extractRowFeatures (r datetime_col)))
  else
    .error "column not found"

/-- `TemporalFeatureExtractor.calculate_trip_duration_features`,
lines 109-166: raises when the start or the end column is absent
(lines 123-124). -/
def calculate_trip_duration_features (df : TFrame) (start_col end_col : String) :
    Except String (List DurRow) :=
  if start_col ∉ df.cols ∨ end_col ∉ df.cols then
    .error "column not found"
  else
    .ok (df.rows.map (fun r => durationFeatures (r start_col) (r end_col)))

/-- `TemporalFeatureExtractor.create_all_temporal_features`, lines 292-327:
base features first; then duration features only when an end column was
requested AND that column is present in the dataset (line 314) — an absent
end column is skipped, not an error.  The inner call receives the
feature-extended frame, whose column set contains the original columns;
only the two timestamp columns are read, so it is modelled on the input
frame.  The cyclical and interaction steps add numeric columns and cannot
raise; they are outside every claim and not modelled. -/
def create_all_temporal_features (df : TFrame) (datetime_col : String)
    (end_datetime_col : Option String) :
    Except String (List FeatRow × Option (List DurRow)) :=
  match extract_time_features df datetime_col with
  | .error msg => .error msg
  | .ok base =>
    match end_datetime_col with
    | some e =>
      if e ∈ df.cols then
        match calculate_trip_duration_features df datetime_col e with
        | .error msg => .error msg
        | .ok dur => .ok (base, some dur)
      else .ok (base, none)
    | none => .ok (base, none)

def isErr {ε α : Type} : Except ε α → Bool
  | .error _ => true
  | .ok _ => false

/-- A dataset with only a start column, used to exhibit the silent skip of
the duration features. -/
def oneColFrame : TFrame :=
  ⟨["started_at"], [fun _ => ⟨2024, 6, 15, 8, 0⟩]⟩

/-- C5 counterexample: with duration features requested via an end column
that is absent from the dataset, `create_all_temporal_features` returns
successfully and silently skips the duration features instead of failing
with a missing-column error. -/
theorem c5_counterexample :
    "ended_at" ∉ oneColFrame.cols ∧
    isErr (create_all_temporal_features oneColFrame "started_at" (some "ended_at")) =
      false := by
  constructor
  · unfold oneColFrame
    decide
  · rfl

/-- C5 amended: `extract_time_features` fails exactly when the requested
start column is absent, `calculate_trip_duration_features` fails exactly
when the start or the end column is absent, but
`create_all_temporal_features` fails only for an absent start column: an
absent requested end column makes it silently skip the duration features
and return the base features with no duration part. -/
theorem c5_missing_column_errors :
    (∀ (df : TFrame) (c : String),
      isErr (extract_time_features df c) = true ↔ c ∉ df.cols) ∧
    (∀ (df : TFrame) (s e : String),
      isErr (calculate_trip_duration_features df s e) = true ↔
        (s ∉ df.cols ∨ e ∉ df.cols)) ∧
    (∀ (df : TFrame) (c e : String),
      isErr (create_all_temporal_features df c (some e)) = true ↔ c ∉ df.cols) ∧
    (∀ (df : TFrame) (c e : String), c ∈ df.cols → e ∉ df.cols →
      create_all_temporal_features df c (some e) =
        .ok (df.rows.map (fun r => extractRowFeatures (r c)), none)) := by
  have hext : ∀ (df : TFrame) (c : String), c ∈ df.cols →
      extract_time_features df c =
        .ok (df.rows.map (fun r => extractRowFeatures (r c))) := by
    intro df c hc
    unfold extract_time_features
    rw [if_pos hc]
  have hext2 : ∀ (df : TFrame) (c : String), c ∉ df.cols →
      extract_time_features df c = .error "column not found" := by
    intro df c hc
    unfold extract_time_features
    rw [if_neg hc]
  refine ⟨?_, ?_, ?_, ?_⟩
  · intro df c
    by_cases hc : c ∈ df.cols
    · rw [hext df c hc]
      simp [isErr, hc]
    · rw [hext2 df c hc]
      simp [isErr, hc]
  · intro df s e
    unfold calculate_trip_duration_features
    split_ifs with h
    · simp [isErr, h]
    · simp [isErr, h]
  · intro df c e
    by_cases hc : c ∈ df.cols
    · by_cases he : e ∈ df.cols
      · have hdur : calculate_trip_duration_features df c e =
            .ok (df.rows.map (fun r => durationFeatures (r c) (r e))) := by
          unfold calculate_trip_duration_features
          rw [if_neg (by simp [hc, he])]
        unfold create_all_temporal_features
        rw [hext df c hc]
        simp [isErr, hc, he, hdur]
      · unfold create_all_temporal_features
        rw [hext df c hc]
        simp [isErr, hc, he]
    · unfold create_all_temporal_features
      rw [hext2 df c hc]
      simp [isErr, hc]
  · intro df c e hc he
    unfold create_all_temporal_features
    rw [hext df c hc]
    simp [he]

/-- Witness for C5: the silent-skip branch applied to the concrete
one-column dataset, discharging both column hypotheses there. -/
theorem c5_missing_column_errors_witness :
    create_all_temporal_features oneColFrame "started_at" (some "ended_at") =
      .ok (oneColFrame.rows.map (fun r => extractRowFeatures (r "started_at")), none) :=
  c5_missing_column_errors.2.2.2 oneColFrame "started_at" "ended_at"
    (by unfold oneColFrame; decide) (by unfold oneColFrame; decide)

/-- C6 counterexample: 2024-06-15 is a Saturday (ISO weekday 6), so the
row extracted from started_at = 2024-06-15 08:00:00 has is_weekend = true,
refuting the claimed is_weekend = False. -/
theorem c6_counterexample :
    (extractRowFeatures ⟨2024, 6, 15, 8, 0⟩).weekday = 6 ∧
    (extractRowFeatures ⟨2024, 6, 15, 8, 0⟩).is_weekend = true := by
  constructor <;> rfl

/-- C6 amended: the season mapping sends months 12, 1, 2 to 1 (Winter),
3, 4, 5 to 2 (Spring), 6, 7, 8 to 3 (Summer) and all other months to 4
(Fall); is_morning_peak holds exactly for hours in [7, 9); is_weekend
holds exactly for ISO weekday at least 6; and the concrete row
started_at = 2024-06-15 08:00:00 gets season 3, is_morning_peak true and
— the date being a Saturday — is_weekend true. -/
theorem c6_season_peak_weekend :
    (∀ t : DT,
      (extractRowFeatures t).season =
        (if t.month ∈ ([12, 1, 2] : List ℕ) then 1
         else if t.month ∈ ([3, 4, 5] : List ℕ) then 2
         else if t.month ∈ ([6, 7, 8] : List ℕ) then 3
         else 4) ∧
      ((extractRowFeatures t).is_morning_peak = true ↔ 7 ≤ t.hour ∧ t.hour < 9) ∧
      ((extractRowFeatures t).is_weekend = true ↔
        6 ≤ weekdayOf t.year t.month t.day)) ∧
    ((extractRowFeatures ⟨2024, 6, 15, 8, 0⟩).season = 3 ∧
     (extractRowFeatures ⟨2024, 6, 15, 8, 0⟩).is_morning_peak = true ∧
     (extractRowFeatures ⟨2024, 6, 15, 8, 0⟩).is_weekend = true) := by
  constructor
  · intro t
    refine ⟨rfl, ?_, ?_⟩
    · simp [extractRowFeatures, isMorningPeakB, morning_peak]
    · simp [extractRowFeatures]
  · exact ⟨rfl, rfl, rfl⟩

/-- Witness for C6: the morning-peak characterization applied at the
concrete timestamp, discharging the hour hypotheses there. -/
theorem c6_season_peak_weekend_witness :
    (extractRowFeatures ⟨2024, 6, 15, 8, 0⟩).is_morning_peak = true :=
  ((c6_season_peak_weekend.1 ⟨2024, 6, 15, 8, 0⟩).2.1).mpr (by decide)

/-- C7: a row is flagged is_holiday exactly when its date is one of the 24
literal dates of the fixed 2020-2025 holiday table; every other date is
never flagged. -/
theorem c7_holiday_iff (t : DT) :
    (extractRowFeatures t).is_holiday = true ↔
      (t.year, t.month, t.day) ∈
        ([(2020, 1, 1), (2020, 7, 4), (2020, 11, 26), (2020, 12, 25),
          (2021, 1, 1), (2021, 7, 4), (2021, 11, 25), (2021, 12, 25),
          (2022, 1, 1), (2022, 7, 4), (2022, 11, 24), (2022, 12, 25),
          (2023, 1, 1), (2023, 7, 4), (2023, 11, 23), (2023, 12, 25),
          (2024, 1, 1), (2024, 7, 4), (2024, 11, 28), (2024, 12, 25),
          (2025, 1, 1), (2025, 7, 4), (2025, 11, 27), (2025, 12, 25)] :
          List (ℕ × ℕ × ℕ)) := by
  simp [extractRowFeatures, holidays]

/-- Witness for C7: Christmas 2024 is flagged, the membership hypothesis
discharged by computation. -/
theorem c7_holiday_iff_witness :
    (extractRowFeatures ⟨2024, 12, 25, 10, 30⟩).is_holiday = true :=
  (c7_holiday_iff ⟨2024, 12, 25, 10, 30⟩).mpr (by decide)

/-! ### Cleaning pipeline (DataCleaner, src/data/clean_data.py)

A trip record is modelled with the standard Divvy schema the cleaner
expects: every name-pattern the stages sniff for (started_at / ended_at,
the four lat/lng columns, the station name/id columns, member_casual,
rideable_type) resolves to the fields below, matching the claim setting of
a dataset that has the timestamp and coordinate columns.  Timestamps are
already-parsed epoch seconds (the string-to-datetime coercion of
`_clean_timestamps` is a no-op on parsed data), coordinates are nullable,
and the frame records whether a duration column is present, since
`_clean_duration` derives one when it is not. -/

structure Row where
  ride_id : String
  started_at : Int
  ended_at : Int
  start_station_name : Option String
  start_station_id : Option String
  end_station_name : Option String
  end_station_id : Option String
  start_lat : Option ℚ
  start_lng : Option ℚ
  end_lat : Option ℚ
  end_lng : Option ℚ
  member_casual : String
  rideable_type : String
  duration_minutes : ℚ
deriving DecidableEq

structure Frame where
  hasDurationCol : Bool
  rows : List Row
deriving DecidableEq

/-- Keyed deduplication: the model of unique(subset=[k]), keeping one
representative per key (the retained representative is implementation
defined in the source). -/
def dedupByKey {α β : Type} [DecidableEq β] (f : α → β) : List α → List α
  | [] => []
  | a :: l => if f a ∈ l.map f then dedupByKey f l else a :: dedupByKey f l

/-- `DataCleaner._remove_duplicates`, lines 65-80: full-row unique, then
unique by ride_id. -/
def removeDuplicates (df : Frame) : Frame :=
  { df with rows := dedupByKey Row.ride_id df.rows.dedup }

def tsOKb (r : Row) : Bool :=
  decide (r.started_at < r.ended_at)

/-- `DataCleaner._clean_timestamps`, lines 82-116: keep rows with
ended_at strictly after started_at. -/
def cleanTimestamps (df : Frame) : Frame :=
  { df with rows := df.rows.filter tsOKb }

/-- The per-column condition of `_filter_geographic_outliers`:
is_between(lo, hi) (inclusive) and is_not_null. -/
def inBoundsb (lo hi : ℚ) : Option ℚ → Bool
  | some v => decide (lo ≤ v) && decide (v ≤ hi)
  | none => false

/-- The Chicago-bounds conjunction over all four coordinate columns. -/
def geoOKb (r : Row) : Bool :=
  inBoundsb 41.5 42.5 r.start_lat && inBoundsb 41.5 42.5 r.end_lat &&
    inBoundsb (-88.0) (-87.0) r.start_lng && inBoundsb (-88.0) (-87.0) r.end_lng

/-- `DataCleaner._filter_geographic_outliers`, lines 118-154. -/
def filterGeographicOutliers (df : Frame) : Frame :=
  { df with rows := df.rows.filter geoOKb }

def durOKb (r : Row) : Bool :=
  decide (1 ≤ r.duration_minutes) && decide (r.duration_minutes ≤ 1440)

/-- The derived duration of `_clean_duration` lines 166-171:
(ended_at - started_at) seconds divided by 60. -/
def setDuration (r : Row) : Row :=
  { r with duration_minutes := ((r.ended_at - r.started_at : Int) : ℚ) / 60 }

/-- `DataCleaner._clean_duration`, lines 156-190: use the duration column
when present, otherwise derive it from the timestamps; filter to
[1, 1440]. -/
def cleanDuration (df : Frame) : Frame :=
  if df.hasDurationCol then
    { df with rows := df.rows.filter durOKb }
  else
    { hasDurationCol := true, rows := (df.rows.map setDuration).filter durOKb }

/-- `DataCleaner._standardize_data_types`, lines 192-215: lowercase the
member_casual and rideable_type columns (the station-id cast to string is
the identity here, ids being modelled as strings). -/
def stdRow (r : Row) : Row :=
  { r with
    member_casual := lowerStr r.member_casual
    rideable_type := lowerStr r.rideable_type }

def standardizeDataTypes (df : Frame) : Frame :=
  { df with rows := df.rows.map stdRow }

/-- `DataCleaner._handle_missing_stations`, lines 217-235: fill null
station names with "Non-Station Parking" and null station ids with
"unknown". -/
def fillRow (r : Row) : Row :=
  { r with
    start_station_name := some (r.start_station_name.getD "Non-Station Parking")
    end_station_name := some (r.end_station_name.getD "Non-Station Parking")
    start_station_id := some (r.start_station_id.getD "unknown")
    end_station_id := some (r.end_station_id.getD "unknown") }

def handleMissingStations (df : Frame) : Frame :=
  { df with rows := df.rows.map fillRow }

/-- `DataCleaner.clean_trip_data`, lines 30-63: the six stages in fixed
order. -/
def clean_trip_data (df : Frame) : Frame :=
  handleMissingStations (standardizeDataTypes (cleanDuration
    (filterGeographicOutliers (cleanTimestamps (removeDuplicates df)))))

/-! #### List-level helper lemmas -/

theorem dedupByKey_subset {α β : Type} [DecidableEq β] (f : α → β)
    (l : List α) : ∀ a ∈ dedupByKey f l, a ∈ l := by
  induction l with
  | nil => intro a ha; exact absurd ha (List.not_mem_nil a)
  | cons b l ih =>
    intro a ha
    unfold dedupByKey at ha
    split_ifs at ha with hb
    · exact List.mem_cons_of_mem b (ih a ha)
    · rcases List.mem_cons.mp ha with h | h
      · exact h ▸ List.mem_cons_self b l
      · exact List.mem_cons_of_mem b (ih a h)

theorem map_dedupByKey_nodup {α β : Type} [DecidableEq β] (f : α → β)
    (l : List α) : ((dedupByKey f l).map f).Nodup := by
  induction l with
  | nil => simp [dedupByKey]
  | cons b l ih =>
    unfold dedupByKey
    split_ifs with hb
    · exact ih
    · rw [List.map_cons, List.nodup_cons]
      refine ⟨?_, ih⟩
      intro hmem
      rcases List.mem_map.mp hmem with ⟨a, ha, hfa⟩
      exact hb (hfa ▸ List.mem_map_of_mem f (dedupByKey_subset f l a ha))

theorem dedupByKey_eq_self {α β : Type} [DecidableEq β] {f : α → β}
    {l : List α} (h : (l.map f).Nodup) : dedupByKey f l = l := by
  induction l with
  | nil => rfl
  | cons b l ih =>
    rw [List.map_cons, List.nodup_cons] at h
    unfold dedupByKey
    rw [if_neg h.1, ih h.2]

theorem filter_self_idem {α : Type} (p : α → Bool) (l : List α) :
    (l.filter p).filter p = l.filter p :=
  List.filter_eq_self.mpr (fun _ ha => List.of_mem_filter ha)

theorem map_eq_self_of {α : Type} {f : α → α} :
    ∀ {l : List α}, (∀ a ∈ l, f a = a) → l.map f = l := by
  intro l h
  induction l with
  | nil => rfl
  | cons b l ih =>
    rw [List.map_cons, h b (List.mem_cons_self b l),
      ih (fun a ha => h a (List.mem_cons_of_mem b ha))]

theorem forall_mem_filter_of {α : Type} {P : α → Prop} {p : α → Bool}
    {l : List α} (h : ∀ a ∈ l, P a) : ∀ a ∈ l.filter p, P a :=
  fun a ha => h a (List.mem_of_mem_filter ha)

theorem forall_mem_map_of {α β : Type} {P : β → Prop} {f : α → β}
    {l : List α} (h : ∀ a ∈ l, P (f a)) : ∀ b ∈ l.map f, P b := by
  intro b hb
  rcases List.mem_map.mp hb with ⟨a, ha, rfl⟩
  exact h a ha

theorem nodup_key_filter {α β : Type} [DecidableEq β] (f : α → β)
    (p : α → Bool) {l : List α} (h : (l.map f).Nodup) :
    ((l.filter p).map f).Nodup :=
  List.Nodup.sublist (List.Sublist.map f (List.filter_sublist l)) h

theorem map_key_map {α β : Type} (f : α → β) (g : α → α)
    (hfg : ∀ a, f (g a) = f a) (l : List α) :
    (l.map g).map f = l.map f := by
  rw [List.map_map]
  exact List.map_congr_left (fun a _ => hfg a)

/-! #### Row-level commutation and idempotence facts -/

theorem stdRow_idem (r : Row) : stdRow (stdRow r) = stdRow r := by
  simp [stdRow, lowerStr_idem]

theorem fillRow_idem (r : Row) : fillRow (fillRow r) = fillRow r := by
  simp [fillRow]

theorem std_fill_comm (r : Row) : stdRow (fillRow r) = fillRow (stdRow r) := rfl

/-! #### Stage idempotence -/

theorem removeDuplicates_idem (df : Frame) :
    removeDuplicates (removeDuplicates df) = removeDuplicates df := by
  have h1 : ((dedupByKey Row.ride_id df.rows.dedup).map Row.ride_id).Nodup :=
    map_dedupByKey_nodup Row.ride_id df.rows.dedup
  have h2 : (dedupByKey Row.ride_id df.rows.dedup).Nodup :=
    List.Nodup.of_map Row.ride_id h1
  show Frame.mk df.hasDurationCol
      (dedupByKey Row.ride_id (dedupByKey Row.ride_id df.rows.dedup).dedup) =
    Frame.mk df.hasDurationCol (dedupByKey Row.ride_id df.rows.dedup)
  rw [List.Nodup.dedup h2, dedupByKey_eq_self h1]

theorem cleanTimestamps_idem (df : Frame) :
    cleanTimestamps (cleanTimestamps df) = cleanTimestamps df := by
  show Frame.mk df.hasDurationCol ((df.rows.filter tsOKb).filter tsOKb) =
    Frame.mk df.hasDurationCol (df.rows.filter tsOKb)
  rw [filter_self_idem]

theorem filterGeographicOutliers_idem (df : Frame) :
    filterGeographicOutliers (filterGeographicOutliers df) =
      filterGeographicOutliers df := by
  show Frame.mk df.hasDurationCol ((df.rows.filter geoOKb).filter geoOKb) =
    Frame.mk df.hasDurationCol (df.rows.filter geoOKb)
  rw [filter_self_idem]

theorem cleanDuration_idem (df : Frame) :
    cleanDuration (cleanDuration df) = cleanDuration df := by
  cases hdc : df.hasDurationCol with
  | true =>
    have h1 : cleanDuration df = Frame.mk true (df.rows.filter durOKb) := by
      unfold cleanDuration
      rw [hdc]
      simp
    have h2 : cleanDuration (Frame.mk true (df.rows.filter durOKb)) =
        Frame.mk true ((df.rows.filter durOKb).filter durOKb) := by
      unfold cleanDuration
      simp
    rw [h1, h2, filter_self_idem]
  | false =>
    have h1 : cleanDuration df =
        Frame.mk true ((df.rows.map setDuration).filter durOKb) := by
      unfold cleanDuration
      rw [hdc]
      simp
    have h2 : cleanDuration (Frame.mk true ((df.rows.map setDuration).filter durOKb)) =
        Frame.mk true (((df.rows.map setDuration).filter durOKb).filter durOKb) := by
      unfold cleanDuration
      simp
    rw [h1, h2, filter_self_idem]

theorem standardizeDataTypes_idem (df : Frame) :
    standardizeDataTypes (standardizeDataTypes df) = standardizeDataTypes df := by
  show Frame.mk df.hasDurationCol ((df.rows.map stdRow).map stdRow) =
    Frame.mk df.hasDurationCol (df.rows.map stdRow)
  rw [List.map_map]
  exact congrArg _ (List.map_congr_left (fun a _ => stdRow_idem a))

theorem handleMissingStations_idem (df : Frame) :
    handleMissingStations (handleMissingStations df) = handleMissingStations df := by
  show Frame.mk df.hasDurationCol ((df.rows.map fillRow).map fillRow) =
    Frame.mk df.hasDurationCol (df.rows.map fillRow)
  rw [List.map_map]
  exact congrArg _ (List.map_congr_left (fun a _ => fillRow_idem a))

/-! #### The cleaned output is a fixed point of every stage -/

/-- A row every stage leaves unchanged: it passes the three filters and is
fixed by the two row rewrites. -/
def RowFixed (r : Row) : Prop :=
  tsOKb r = true ∧ geoOKb r = true ∧ durOKb r = true ∧
    stdRow r = r ∧ fillRow r = r

/-- A frame the whole pipeline leaves unchanged: duration column present,
ride ids pairwise distinct, every row fixed. -/
def FrameClean (g : Frame) : Prop :=
  g.hasDurationCol = true ∧ (g.rows.map Row.ride_id).Nodup ∧
    ∀ r ∈ g.rows, RowFixed r

theorem clean_of_fixed (g : Frame) (h : FrameClean g) : clean_trip_data g = g := by
  obtain ⟨hd, hn, hr⟩ := h
  have hnodup : g.rows.Nodup := List.Nodup.of_map Row.ride_id hn
  have s1 : removeDuplicates g = g := by
    show Frame.mk g.hasDurationCol (dedupByKey Row.ride_id g.rows.dedup) = g
    rw [List.Nodup.dedup hnodup, dedupByKey_eq_self hn]
  have s2 : cleanTimestamps g = g := by
    show Frame.mk g.hasDurationCol (g.rows.filter tsOKb) = g
    rw [List.filter_eq_self.mpr (fun a ha => (hr a ha).1)]
  have s3 : filterGeographicOutliers g = g := by
    show Frame.mk g.hasDurationCol (g.rows.filter geoOKb) = g
    rw [List.filter_eq_self.mpr (fun a ha => (hr a ha).2.1)]
  have s4 : cleanDuration g = g := by
    unfold cleanDuration
    rw [hd]
    simp only [if_true]
    show Frame.mk true (g.rows.filter durOKb) = g
    rw [List.filter_eq_self.mpr (fun a ha => (hr a ha).2.2.1), ← hd]
  have s5 : standardizeDataTypes g = g := by
    show Frame.mk g.hasDurationCol (g.rows.map stdRow) = g
    rw [map_eq_self_of (fun a ha => (hr a ha).2.2.2.1)]
  have s6 : handleMissingStations g = g := by
    show Frame.mk g.hasDurationCol (g.rows.map fillRow) = g
    rw [map_eq_self_of (fun a ha => (hr a ha).2.2.2.2)]
  unfold clean_trip_data
  rw [s1, s2, s3, s4, s5, s6]

/-- The common tail of the pipeline: after the duration stage produced a
list of rows passing all three filters with distinct ride ids, the type
standardization and station fill yield a clean frame. -/
theorem frameClean_of_stage4 (l4 : List Row)
    (hn : (l4.map Row.ride_id).Nodup)
    (hok : ∀ a ∈ l4, tsOKb a = true ∧ geoOKb a = true ∧ durOKb a = true) :
    FrameClean (Frame.mk true ((l4.map stdRow).map fillRow)) := by
  refine ⟨rfl, ?_, ?_⟩
  · show (((l4.map stdRow).map fillRow).map Row.ride_id).Nodup
    rw [map_key_map Row.ride_id fillRow (fun a => rfl),
      map_key_map Row.ride_id stdRow (fun a => rfl)]
    exact hn
  · show ∀ r ∈ (l4.map stdRow).map fillRow, RowFixed r
    apply forall_mem_map_of
    apply forall_mem_map_of
    intro a ha
    obtain ⟨hts, hgeo, hdur⟩ := hok a ha
    refine ⟨hts, hgeo, hdur, ?_, fillRow_idem (stdRow a)⟩
    rw [std_fill_comm, stdRow_idem]

theorem clean_trip_data_isClean (df : Frame) : FrameClean (clean_trip_data df) := by
  have hn1 : ((dedupByKey Row.ride_id df.rows.dedup).map Row.ride_id).Nodup :=
    map_dedupByKey_nodup Row.ride_id df.rows.dedup
  have hn3 : ((((dedupByKey Row.ride_id df.rows.dedup).filter tsOKb).filter
      geoOKb).map Row.ride_id).Nodup :=
    nodup_key_filter _ _ (nodup_key_filter _ _ hn1)
  have h13 : ∀ a ∈ ((dedupByKey Row.ride_id df.rows.dedup).filter tsOKb).filter geoOKb,
      tsOKb a = true ∧ geoOKb a = true := by
    intro a ha
    exact ⟨List.of_mem_filter (List.mem_of_mem_filter ha), List.of_mem_filter ha⟩
  cases hdc : df.hasDurationCol with
  | true =>
    have hcd : clean_trip_data df = Frame.mk true
        ((((((dedupByKey Row.ride_id df.rows.dedup).filter tsOKb).filter
          geoOKb).filter durOKb).map stdRow).map fillRow) := by
      unfold clean_trip_data handleMissingStations standardizeDataTypes
        cleanDuration filterGeographicOutliers cleanTimestamps removeDuplicates
      simp [hdc]
    rw [hcd]
    apply frameClean_of_stage4
    · exact nodup_key_filter _ _ hn3
    · intro a ha
      obtain ⟨hts, hgeo⟩ := h13 a (List.mem_of_mem_filter ha)
      exact ⟨hts, hgeo, List.of_mem_filter ha⟩
  | false =>
    have hcd : clean_trip_data df = Frame.mk true
        (((((((dedupByKey Row.ride_id df.rows.dedup).filter tsOKb).filter
          geoOKb).map setDuration).filter durOKb).map stdRow).map fillRow) := by
      unfold clean_trip_data handleMissingStations standardizeDataTypes
        cleanDuration filterGeographicOutliers cleanTimestamps removeDuplicates
      simp [hdc]
    rw [hcd]
    apply frameClean_of_stage4
    · apply nodup_key_filter
      rw [map_key_map Row.ride_id setDuration (fun a => rfl)]
      exact hn3
    · intro a ha
      have hmem := List.mem_of_mem_filter ha
      rcases List.mem_map.mp hmem with ⟨b, hb, rfl⟩
      obtain ⟨hts, hgeo⟩ := h13 b hb
      exact ⟨hts, hgeo, List.of_mem_filter ha⟩

theorem inBoundsb_iff (lo hi : ℚ) (o : Option ℚ) :
    inBoundsb lo hi o = true ↔ ∃ v, o = some v ∧ lo ≤ v ∧ v ≤ hi := by
  cases o <;> simp [inBoundsb]

/-- C2: every row of the cleaned dataset has its end timestamp strictly
after its start timestamp, a duration within [1, 1440] minutes, and all
four coordinates present and inside the Chicago bounding box
(latitude in [41.5, 42.5], longitude in [-88.0, -87.0]). -/
theorem c2_clean_invariants (df : Frame) (r : Row)
    (hr : r ∈ (clean_trip_data df).rows) :
    r.started_at < r.ended_at ∧
    (1 ≤ r.duration_minutes ∧ r.duration_minutes ≤ 1440) ∧
    (∃ v, r.start_lat = some v ∧ 41.5 ≤ v ∧ v ≤ 42.5) ∧
    (∃ v, r.end_lat = some v ∧ 41.5 ≤ v ∧ v ≤ 42.5) ∧
    (∃ v, r.start_lng = some v ∧ -88.0 ≤ v ∧ v ≤ -87.0) ∧
    (∃ v, r.end_lng = some v ∧ -88.0 ≤ v ∧ v ≤ -87.0) := by
  obtain ⟨hd, hn, hall⟩ := clean_trip_data_isClean df
  obtain ⟨hts, hgeo, hdur, _, _⟩ := hall r hr
  unfold tsOKb at hts
  unfold durOKb at hdur
  unfold geoOKb at hgeo
  rw [Bool.and_eq_true, decide_eq_true_iff, decide_eq_true_iff] at hdur
  simp only [Bool.and_eq_true] at hgeo
  obtain ⟨⟨⟨g1, g2⟩, g3⟩, g4⟩ := hgeo
  exact ⟨of_decide_eq_true hts, hdur,
    (inBoundsb_iff _ _ _).mp g1, (inBoundsb_iff _ _ _).mp g2,
    (inBoundsb_iff _ _ _).mp g3, (inBoundsb_iff _ _ _).mp g4⟩

/-- A concrete raw row and one-row frame used to witness C2. -/
def sampleRow : Row :=
  { ride_id := "r100"
    started_at := 0
    ended_at := 600
    start_station_name := none
    start_station_id := none
    end_station_name := some "Clark St"
    end_station_id := some "77"
    start_lat := some 42
    start_lng := some (-87.5)
    end_lat := some 41.9
    end_lng := some (-87.7)
    member_casual := "MEMBER"
    rideable_type := "Classic_Bike"
    duration_minutes := 10 }

def sampleFrame : Frame := ⟨true, [sampleRow]⟩

theorem sampleFrame_rows :
    (clean_trip_data sampleFrame).rows = [fillRow (stdRow sampleRow)] := by
  have hb1 : tsOKb sampleRow = true := by norm_num [tsOKb, sampleRow]
  have hb2 : geoOKb sampleRow = true := by
    norm_num [geoOKb, sampleRow, inBoundsb]
  have hb3 : durOKb sampleRow = true := by norm_num [durOKb, sampleRow]
  unfold clean_trip_data handleMissingStations standardizeDataTypes
    cleanDuration filterGeographicOutliers cleanTimestamps removeDuplicates
    sampleFrame
  simp [dedupByKey, hb1, hb2, hb3]

/-- Witness for C2: the invariants hold of the single surviving row of the
sample frame, the membership hypothesis discharged by computing the
pipeline on it. -/
theorem c2_clean_invariants_witness :
    fillRow (stdRow sampleRow) ∈ (clean_trip_data sampleFrame).rows ∧
    ((fillRow (stdRow sampleRow)).started_at < (fillRow (stdRow sampleRow)).ended_at ∧
    (1 ≤ (fillRow (stdRow sampleRow)).duration_minutes ∧
      (fillRow (stdRow sampleRow)).duration_minutes ≤ 1440) ∧
    (∃ v, (fillRow (stdRow sampleRow)).start_lat = some v ∧ 41.5 ≤ v ∧ v ≤ 42.5) ∧
    (∃ v, (fillRow (stdRow sampleRow)).end_lat = some v ∧ 41.5 ≤ v ∧ v ≤ 42.5) ∧
    (∃ v, (fillRow (stdRow sampleRow)).start_lng = some v ∧ -88.0 ≤ v ∧ v ≤ -87.0) ∧
    (∃ v, (fillRow (stdRow sampleRow)).end_lng = some v ∧ -88.0 ≤ v ∧ v ≤ -87.0)) := by
  have hmem : fillRow (stdRow sampleRow) ∈ (clean_trip_data sampleFrame).rows := by
    rw [sampleFrame_rows]
    exact List.mem_singleton_self _
  exact ⟨hmem, c2_clean_invariants sampleFrame _ hmem⟩

/-- C3: the full cleaning pipeline is idempotent — cleaning a cleaned
frame returns it unchanged (same rows, hence same row count) — and each of
the six stages is independently idempotent. -/
theorem c3_clean_idempotent :
    (∀ df : Frame, clean_trip_data (clean_trip_data df) = clean_trip_data df) ∧
    (∀ df : Frame, removeDuplicates (removeDuplicates df) = removeDuplicates df) ∧
    (∀ df : Frame, cleanTimestamps (cleanTimestamps df) = cleanTimestamps df) ∧
    (∀ df : Frame,
      filterGeographicOutliers (filterGeographicOutliers df) =
        filterGeographicOutliers df) ∧
    (∀ df : Frame, cleanDuration (cleanDuration df) = cleanDuration df) ∧
    (∀ df : Frame,
      standardizeDataTypes (standardizeDataTypes df) = standardizeDataTypes df) ∧
    (∀ df : Frame,
      handleMissingStations (handleMissingStations df) = handleMissingStations df) :=
  ⟨fun df => clean_of_fixed _ (clean_trip_data_isClean df),
   removeDuplicates_idem, cleanTimestamps_idem, filterGeographicOutliers_idem,
   cleanDuration_idem, standardizeDataTypes_idem, handleMissingStations_idem⟩

end Divvy
